import Mathlib

/-!
Verification of the review-intelligence backend against its specification.

The Python sources under backend/app are shallowly embedded: numeric review
scores (Python floats holding decimal constants) are modelled as rationals,
dictionaries as structures with Option-typed fields for keys that may be
absent, and the external model calls (VADER, TextBlob, sklearn) as oracle
inputs, since the repository consumes them as pre-built black boxes.  The
process clock and the process-global random generator are passed explicitly
as parameters.
-/

/-- Python str.strip(): drop leading and trailing whitespace. -/
def pyStrip (s : String) : String :=
  ⟨((s.data.dropWhile Char.isWhitespace).reverse.dropWhile
      Char.isWhitespace).reverse⟩

/-- Python round(x, n): round to n decimal places.  The embedded scores are
exact multiples of 1/10 or already rounded values, so the argument of the
inner round is an integer and the half-to-even versus half-up difference
between Python and Mathlib never materialises. -/
def pyRound (n : ℕ) (q : ℚ) : ℚ := (round (q * (10 : ℚ) ^ n) : ℚ) / (10 : ℚ) ^ n

/- ----------------------------------------------------------------------
Sentiment labelling (claim C1).

backend/app/api/endpoints/analyze.py, analyze_sentiment_enhanced (lines
23-63): the VADER compound score and the TextBlob polarity/subjectivity are
computed by external scorers; the function is embedded as a function of
those three scores.
---------------------------------------------------------------------- -/

structure EnhancedSentiment where
  sentiment : String
  vaderCompound : ℚ
  textblobPolarity : ℚ
  confidence : ℚ
  subjectivity : ℚ
deriving DecidableEq

/-- analyze.py lines 36-63: label from the VADER compound alone with the
0.05 thresholds; confidence is the mean of the absolute scores. -/
def analyze_sentiment_enhanced (compound polarity subjectivity : ℚ) :
    EnhancedSentiment :=
  let sentiment :=
    if compound ≥ 5 / 100 then "positive"
    else if compound ≤ -(5 / 100) then "negative"
    else "neutral"
  { sentiment := sentiment
    vaderCompound := pyRound 3 compound
    textblobPolarity := pyRound 3 polarity
    confidence := pyRound 3 ((|compound| + |polarity|) / 2)
    subjectivity := pyRound 3 subjectivity }

/-- backend/app/services/analyzer.py lines 1023-1033, _get_sentiment_label:
strict thresholds at 0.1, not 0.05. -/
def get_sentiment_label (score : ℚ) : String :=
  if score > 1 / 10 then "positive"
  else if score < -(1 / 10) then "negative"
  else "neutral"

structure LightweightSentiment where
  combinedScore : ℚ
  vaderCompound : ℚ
  textblobPolarity : ℚ
  textblobSubjectivity : ℚ
  label : String
deriving DecidableEq

/-- analyzer.py lines 443-463 (_analyze_sentiment_lightweight, per-text
body): the label is derived from the mean of the VADER compound and the
TextBlob polarity, through _get_sentiment_label. -/
def analyze_sentiment_lightweight_one (vaderCompound textblobPolarity
    textblobSubjectivity : ℚ) : LightweightSentiment :=
  let combined := (vaderCompound + textblobPolarity) / 2
  { combinedScore := combined
    vaderCompound := vaderCompound
    textblobPolarity := textblobPolarity
    textblobSubjectivity := textblobSubjectivity
    label := get_sentiment_label combined }

/-- C1, counterexample.  A review whose VADER compound is 0 (strictly inside
the claimed neutral band) but whose TextBlob polarity is 0.5 is labelled
positive by the analyzer-service lightweight path, so the attached label is
not decided by the compound score alone with the 0.05 thresholds. -/
theorem C1_counterexample :
    (analyze_sentiment_lightweight_one 0 (1 / 2) 0).label = "positive" ∧
    (analyze_sentiment_lightweight_one 0 (1 / 2) 0).vaderCompound = 0 ∧
    ¬ ((0 : ℚ) ≥ 5 / 100) ∧
    (analyze_sentiment_lightweight_one (5 / 100) 0 0).label = "neutral" := by
  refine ⟨?_, rfl, by norm_num, ?_⟩ <;>
    norm_num [analyze_sentiment_lightweight_one, get_sentiment_label]

/-- C1, amended: the endpoint path (analyze_sentiment_enhanced) labels by
the VADER compound alone with the inclusive 0.05 thresholds; the analyzer
service lightweight path instead labels by the mean of the VADER compound
and the TextBlob polarity with strict 0.1 thresholds. -/
theorem C1_label_rules (compound polarity subjectivity : ℚ) :
    ((analyze_sentiment_enhanced compound polarity subjectivity).sentiment
        = "positive" ↔ 5 / 100 ≤ compound) ∧
    ((analyze_sentiment_enhanced compound polarity subjectivity).sentiment
        = "negative" ↔ compound ≤ -(5 / 100)) ∧
    ((analyze_sentiment_enhanced compound polarity subjectivity).sentiment
        = "neutral" ↔ (-(5 / 100) < compound ∧ compound < 5 / 100)) ∧
    ((analyze_sentiment_lightweight_one compound polarity
        subjectivity).label = "positive"
      ↔ 1 / 10 < (compound + polarity) / 2) ∧
    ((analyze_sentiment_lightweight_one compound polarity
        subjectivity).label = "negative"
      ↔ (compound + polarity) / 2 < -(1 / 10)) ∧
    ((analyze_sentiment_lightweight_one compound polarity
        subjectivity).label = "neutral"
      ↔ (-(1 / 10) ≤ (compound + polarity) / 2
          ∧ (compound + polarity) / 2 ≤ 1 / 10)) := by
  simp only [analyze_sentiment_enhanced, analyze_sentiment_lightweight_one,
    get_sentiment_label]
  split_ifs <;>
    refine ⟨?_, ?_, ?_, ?_, ?_, ?_⟩ <;>
    first
    | exact iff_of_true rfl (by constructor <;> linarith)
    | exact iff_of_true rfl (by linarith)
    | (refine iff_of_false (by decide) ?_; rintro ⟨hA, hB⟩; linarith)
    | (refine iff_of_false (by decide) ?_; intro hA; linarith)

/- ----------------------------------------------------------------------
Multi-locale fetch orchestration (claims C2 and C3).

backend/app/services/amazon_scraper.py, fetch_reviews_multiple_countries
(lines 163-241).  The primary adapter (apify_service.fetch_reviews) catches
every exception internally and returns an error dictionary (error_type
"exception"), so it is embedded as a total function from a locale to an
AdapterResult.  The ASIN extraction helper and the mock generator are
oracle parameters.  Besides the outcome, the embedding returns the list of
per-locale error notes accumulated by the loop and the trace of locales for
which the adapter was actually invoked; the source only surfaces the error
notes in the all-failed branch, and the trace is instrumentation used to
state the short-circuit property.
---------------------------------------------------------------------- -/

structure AdapterResult where
  success : Bool
  totalReviews : ℕ
  error : Option String
  errorType : Option String
deriving DecidableEq

inductive FetchOutcome (μ : Type) where
  | fromAdapter (result : AdapterResult) (countriesTried : List String)
      (successfulCountry : String) (source : String)
  | allFailed (error : String) (errorType : String) (suggestion : String)
      (asin : String) (countriesTried : List String)
      (countryErrors : List String)
  | mockFallback (payload : μ) (country : String)
      (countriesTried : List String) (successfulCountry : String)
      (source : String)
  | invalidInput (error : String) (errorType : String)
deriving DecidableEq

/-- Lines 193-219: try each country in order; a successful result with at
least one review is returned at once, otherwise the error note is recorded
and the next country tried. -/
def fetch_countries_loop (adapter : String → AdapterResult)
    (errors attempted : List String) :
    List String → Option (AdapterResult × String) × List String × List String
  | [] => (none, errors, attempted)
  | c :: rest =>
    let r := adapter c
    if r.success = true ∧ 0 < r.totalReviews then
      (some (r, c), errors, attempted ++ [c])
    else
      fetch_countries_loop adapter
        (errors ++ [c ++ ": " ++ r.error.getD "Unknown error"])
        (attempted ++ [c]) rest

/-- amazon_scraper.py lines 163-241.  realService none models the branch
where no Apify service is configured (mock data is substituted for the
first country without invoking any adapter). -/
def fetch_reviews_multiple_countries {μ : Type}
    (realService : Option (String → AdapterResult))
    (mockGen : String → ℕ → μ) (extractAsin : String → Option String)
    (asinOrUrl : String) (maxReviews : ℕ) (countries : List String) :
    FetchOutcome μ × List String × List String :=
  match extractAsin asinOrUrl with
  | none =>
    (.invalidInput ("Invalid ASIN or URL: " ++ asinOrUrl) "invalid_input",
      [], [])
  | some asin =>
    match realService with
    | some adapter =>
      match fetch_countries_loop adapter [] [] countries with
      | (some (r, c), errs, att) =>
        (.fromAdapter r countries c "apify", errs, att)
      | (none, errs, att) =>
        (.allFailed
          ("Failed to fetch reviews from all countries: "
            ++ String.intercalate ", " countries)
          "all_countries_failed"
          ("The product might not be available in these regions, has no "
            ++ "reviews, or there might be an issue with the review service.")
          asin countries errs, errs, att)
    | none =>
      match countries with
      | c :: _ =>
        (.mockFallback (mockGen asin maxReviews) c countries c "mock",
          [], [])
      | [] =>
        (.mockFallback (mockGen asin maxReviews) "IN" [] "IN" "mock", [], [])

def FetchOutcome.successFlag {μ : Type} : FetchOutcome μ → Bool
  | .fromAdapter r _ _ _ => r.success
  | .allFailed _ _ _ _ _ _ => false
  | .mockFallback _ _ _ _ _ => true
  | .invalidInput _ _ => false

def FetchOutcome.errorTypeField {μ : Type} : FetchOutcome μ → Option String
  | .fromAdapter r _ _ _ => r.errorType
  | .allFailed _ et _ _ _ _ => some et
  | .mockFallback _ _ _ _ _ => none
  | .invalidInput _ et => some et

def FetchOutcome.countriesTriedField {μ : Type} :
    FetchOutcome μ → Option (List String)
  | .fromAdapter _ ct _ _ => some ct
  | .allFailed _ _ _ _ ct _ => some ct
  | .mockFallback _ _ ct _ _ => some ct
  | .invalidInput _ _ => none

/-- A locale attempt counts as successful when the adapter reports success
and returns at least one review (line 200). -/
def localeOk (adapter : String → AdapterResult) (c : String) : Prop :=
  (adapter c).success = true ∧ 0 < (adapter c).totalReviews

instance (adapter : String → AdapterResult) (c : String) :
    Decidable (localeOk adapter c) := by
  unfold localeOk; infer_instance

lemma fetch_countries_loop_found (adapter : String → AdapterResult)
    (pre : List String) (c : String) (post : List String)
    (errors attempted : List String)
    (hfail : ∀ x ∈ pre, ¬ localeOk adapter x) (hok : localeOk adapter c) :
    fetch_countries_loop adapter errors attempted (pre ++ c :: post) =
      (some (adapter c, c),
        errors ++ pre.map
          (fun x => x ++ ": " ++ (adapter x).error.getD "Unknown error"),
        attempted ++ pre ++ [c]) := by
  induction pre generalizing errors attempted with
  | nil => simp [fetch_countries_loop, hok.1, hok.2]
  | cons x xs ih =>
    have hx : ¬ localeOk adapter x := hfail x (by simp)
    simp only [List.cons_append, fetch_countries_loop]
    rw [if_neg (by exact hx)]
    simp only [List.append_eq]
    rw [ih _ _ (fun y hy => hfail y (by simp [hy]))]
    simp

lemma fetch_countries_loop_exhausted (adapter : String → AdapterResult)
    (cs errors attempted : List String)
    (hfail : ∀ x ∈ cs, ¬ localeOk adapter x) :
    fetch_countries_loop adapter errors attempted cs =
      (none,
        errors ++ cs.map
          (fun x => x ++ ": " ++ (adapter x).error.getD "Unknown error"),
        attempted ++ cs) := by
  induction cs generalizing errors attempted with
  | nil => simp [fetch_countries_loop]
  | cons x xs ih =>
    have hx : ¬ localeOk adapter x := hfail x (by simp)
    simp only [fetch_countries_loop]
    rw [if_neg (by exact hx)]
    rw [ih _ _ (fun y hy => hfail y (by simp [hy]))]
    simp

/-- C2: iterating the locale priority list in order, the first locale whose
adapter call succeeds with at least one review short-circuits the loop: its
result is returned (provenance apify, successful country recorded), the
adapter is invoked exactly for the failed prefix plus that locale, and each
failing locale of the prefix is recorded as an error note before the next
locale is tried. -/
theorem C2_short_circuit {μ : Type} (adapter : String → AdapterResult)
    (mockGen : String → ℕ → μ) (extractAsin : String → Option String)
    (asinOrUrl asin : String) (maxReviews : ℕ)
    (pre : List String) (c : String) (post : List String)
    (hasin : extractAsin asinOrUrl = some asin)
    (hfail : ∀ x ∈ pre, ¬ localeOk adapter x)
    (hok : localeOk adapter c) :
    fetch_reviews_multiple_countries (some adapter) mockGen extractAsin
        asinOrUrl maxReviews (pre ++ c :: post) =
      (.fromAdapter (adapter c) (pre ++ c :: post) c "apify",
        pre.map (fun x => x ++ ": " ++ (adapter x).error.getD "Unknown error"),
        pre ++ [c]) := by
  simp only [fetch_reviews_multiple_countries, hasin]
  rw [fetch_countries_loop_found adapter pre c post [] [] hfail hok]
  simp

/-- An adapter for concrete runs: fails for IN, succeeds with 3 reviews for
US, never consulted beyond. -/
def sampleAdapter : String → AdapterResult := fun c =>
  if c = "US" then
    { success := true, totalReviews := 3, error := none, errorType := none }
  else
    { success := false, totalReviews := 0, error := some "Scraping failed",
      errorType := some "scraping_failed" }

/-- C2, witness: concrete run over IN, US, UK, DE where IN fails and US
succeeds; UK and DE are never attempted. -/
theorem C2_short_circuit_witness :
    fetch_reviews_multiple_countries (some sampleAdapter) (fun _ _ => ())
        (fun s => some s) "B0TESTASIN" 100 (["IN"] ++ "US" :: ["UK", "DE"]) =
      (.fromAdapter (sampleAdapter "US") (["IN"] ++ "US" :: ["UK", "DE"])
          "US" "apify",
        ["IN"].map
          (fun x => x ++ ": " ++ (sampleAdapter x).error.getD "Unknown error"),
        ["IN"] ++ ["US"]) :=
  C2_short_circuit sampleAdapter (fun _ _ => ()) (fun s => some s)
    "B0TESTASIN" "B0TESTASIN" 100 ["IN"] "US" ["UK", "DE"] rfl
    (by decide) (by decide)

/-- C3, amended: when the real service is configured and every locale
attempt fails, the result is a failure whose errorType field is
"all_countries_failed" (not "locale_exhausted") and whose attempted-locale
list is the configured locale list itself, so its length equals the
configured locale count. -/
theorem C3_locale_exhaustion {μ : Type} (adapter : String → AdapterResult)
    (mockGen : String → ℕ → μ) (extractAsin : String → Option String)
    (asinOrUrl asin : String) (maxReviews : ℕ) (countries : List String)
    (hasin : extractAsin asinOrUrl = some asin)
    (hfail : ∀ x ∈ countries, ¬ localeOk adapter x) :
    (fetch_reviews_multiple_countries (some adapter) mockGen extractAsin
        asinOrUrl maxReviews countries).1.successFlag = false ∧
    (fetch_reviews_multiple_countries (some adapter) mockGen extractAsin
        asinOrUrl maxReviews countries).1.errorTypeField
      = some "all_countries_failed" ∧
    ∃ tried,
      (fetch_reviews_multiple_countries (some adapter) mockGen extractAsin
          asinOrUrl maxReviews countries).1.countriesTriedField = some tried
        ∧ tried.length = countries.length := by
  simp only [fetch_reviews_multiple_countries, hasin]
  rw [fetch_countries_loop_exhausted adapter countries [] [] hfail]
  exact ⟨rfl, rfl, countries, rfl, rfl⟩

/-- An adapter that fails for every locale. -/
def failingAdapter : String → AdapterResult := fun _ =>
  { success := false, totalReviews := 0, error := some "boom",
    errorType := some "scraping_failed" }

/-- C3, witness: all four default locales fail against a configured real
service; the failure carries errorType "all_countries_failed" and an
attempted-locale list of length four. -/
theorem C3_locale_exhaustion_witness :
    (fetch_reviews_multiple_countries (some failingAdapter) (fun _ _ => ())
        (fun s => some s) "B0TESTASIN" 100
        ["IN", "US", "UK", "DE"]).1.successFlag = false ∧
    (fetch_reviews_multiple_countries (some failingAdapter) (fun _ _ => ())
        (fun s => some s) "B0TESTASIN" 100
        ["IN", "US", "UK", "DE"]).1.errorTypeField
      = some "all_countries_failed" ∧
    ∃ tried,
      (fetch_reviews_multiple_countries (some failingAdapter) (fun _ _ => ())
          (fun s => some s) "B0TESTASIN" 100
          ["IN", "US", "UK", "DE"]).1.countriesTriedField = some tried
        ∧ tried.length = (["IN", "US", "UK", "DE"] : List String).length :=
  C3_locale_exhaustion failingAdapter (fun _ _ => ()) (fun s => some s)
    "B0TESTASIN" "B0TESTASIN" 100 ["IN", "US", "UK", "DE"] rfl (by decide)

/-- C3, counterexample: in the concrete all-failed run the errorType field
is "all_countries_failed"; it is not the "locale_exhausted" value stated by
the claim. -/
theorem C3_counterexample :
    (fetch_reviews_multiple_countries (some failingAdapter) (fun _ _ => ())
        (fun s => some s) "B0TESTASIN" 100
        ["IN", "US", "UK", "DE"]).1.successFlag = false ∧
    (fetch_reviews_multiple_countries (some failingAdapter) (fun _ _ => ())
        (fun s => some s) "B0TESTASIN" 100
        ["IN", "US", "UK", "DE"]).1.errorTypeField
      ≠ some "locale_exhausted" := by
  constructor <;> decide

/- ----------------------------------------------------------------------
DataFrame preparation and sanitization (claim C4).

backend/app/services/analyzer.py lines 378-409 (_prepare_dataframe_enhanced)
and backend/app/utils/helpers.py lines 46-78 (sanitize_dataframe).  A
DataFrame row is a record; the result of pd.to_numeric(errors="coerce") on
the rating cell is an Option rational (none models NaN, i.e. an unparseable
rating).  Both frames are modelled with all referenced columns present,
which is the shape this repository feeds them.
---------------------------------------------------------------------- -/

structure PrepInput where
  review_text : Option String
  rating : Option ℚ
  review_date : Option String
deriving DecidableEq

structure PreparedRow where
  review_text : String
  rating : ℚ
  review_date : Option String
deriving DecidableEq

/-- analyzer.py lines 378-409: drop rows without text, drop texts of length
at most 5, coerce the rating (NaN becomes 3.0), clip it into [1, 5]. -/
def _prepare_dataframe_enhanced (rows : List PrepInput) : List PreparedRow :=
  ((rows.filterMap fun r => r.review_text.map fun t => (t, r)).filter
      fun tr => 5 < tr.1.length).map
    fun tr =>
      { review_text := tr.1
        rating := min 5 (max 1 (tr.2.rating.getD 3))
        review_date := tr.2.review_date }

structure SanRow where
  review_id : String
  review_text : Option String
  rating : Option ℚ
  review_date : Option String
deriving DecidableEq

structure SanOut where
  review_id : String
  review_text : String
  rating : ℚ
  review_date : Option String
deriving DecidableEq

/-- helpers.py line 61: drop_duplicates on review_id keeping the first
occurrence. -/
def dropDuplicatesById (seen : List String) : List SanRow → List SanRow
  | [] => []
  | r :: rs =>
    if r.review_id ∈ seen then dropDuplicatesById seen rs
    else r :: dropDuplicatesById (r.review_id :: seen) rs

/-- helpers.py lines 46-78: dedupe, fill missing text with the empty string
and missing ratings with 3.0, keep only ratings between 1 and 5, drop rows
whose stripped text is empty. -/
def sanitize_dataframe (rows : List SanRow) : List SanOut :=
  (((dropDuplicatesById [] rows).map fun r =>
      ({ review_id := r.review_id
         review_text := r.review_text.getD ""
         rating := r.rating.getD 3
         review_date := r.review_date } : SanOut)).filter
    fun r => decide (1 ≤ r.rating) && decide (r.rating ≤ 5)).filter
    fun r => pyStrip r.review_text != ""

/-- C4: after DataFrame preparation every rating lies in the closed
interval [1, 5]; unparseable ratings are replaced (by 3.0) rather than left
outside the range, and sanitize_dataframe likewise only lets ratings inside
[1, 5] through. -/
theorem C4_rating_bounds (rows : List PrepInput) (rows2 : List SanRow)
    (r : PreparedRow) (s : SanOut)
    (hr : r ∈ _prepare_dataframe_enhanced rows)
    (hs : s ∈ sanitize_dataframe rows2) :
    (1 ≤ r.rating ∧ r.rating ≤ 5) ∧ (1 ≤ s.rating ∧ s.rating ≤ 5) := by
  constructor
  · obtain ⟨tr, _, rfl⟩ := List.mem_map.1 hr
    exact ⟨le_min (by norm_num) (le_max_left 1 _), min_le_left 5 _⟩
  · have hs1 := (List.mem_filter.1 hs).1
    have := (List.mem_filter.1 hs1).2
    simp only [Bool.and_eq_true, decide_eq_true_eq] at this
    exact this

/-- C4, witness: a concrete row whose rating cell failed numeric coercion
comes out with rating 3, inside the interval. -/
theorem C4_rating_bounds_witness :
    (1 ≤ (3 : ℚ) ∧ (3 : ℚ) ≤ 5) ∧ (1 ≤ (3 : ℚ) ∧ (3 : ℚ) ≤ 5) :=
  C4_rating_bounds
    [{ review_text := some "solid build quality", rating := none,
       review_date := none }]
    [{ review_id := "a", review_text := some " nice ", rating := none,
       review_date := none }]
    { review_text := "solid build quality", rating := 3, review_date := none }
    { review_id := "a", review_text := " nice ", rating := 3,
      review_date := none }
    (by
      norm_num [_prepare_dataframe_enhanced, min_def, max_def]
      refine ⟨"solid build quality",
        { review_text := some "solid build quality", rating := none,
          review_date := none }, ?_⟩
      norm_num
      decide)
    (by
      norm_num [sanitize_dataframe, dropDuplicatesById]
      decide)

/- ----------------------------------------------------------------------
Bot detection (claims C6, C8 and C10).

backend/app/services/bot_detector.py.  Python string helpers are modelled
structurally: str.lower via Char.toLower (the reviews handled here are
ASCII), str.split() as splitting on whitespace runs, the substring test of
the in operator as a list-infix test, and the anchored regular expressions
of the source (all of the shape ^literal$ with optional single characters)
as explicit string matching.
---------------------------------------------------------------------- -/

/-- Python str.lower(). -/
def pyLower (s : String) : String := ⟨s.data.map Char.toLower⟩

def isCasedChar (c : Char) : Bool := c.isLower || c.isUpper

/-- Python str.isupper(): at least one cased character and every cased
character uppercase. -/
def pyIsUpper (s : String) : Bool :=
  s.data.any isCasedChar && s.data.all fun c => !isCasedChar c || c.isUpper

/-- Python str.split() with no argument: split on runs of whitespace. -/
def splitWsGo (cur : List Char) : List Char → List (List Char)
  | [] => if cur = [] then [] else [cur.reverse]
  | c :: cs =>
    if c.isWhitespace then
      if cur = [] then splitWsGo [] cs else cur.reverse :: splitWsGo [] cs
    else splitWsGo (c :: cur) cs

def pySplitWs (s : String) : List (List Char) := splitWsGo [] s.data

/-- Python `needle in hay` for strings: contiguous substring test. -/
def substrOf (needle hay : List Char) : Bool :=
  match hay with
  | [] => decide (needle = [])
  | _ :: t => needle.isPrefixOf hay || substrOf needle t

/-- One-or-more ASCII digits (the regex \d+ over the ASCII inputs handled
here). -/
def digits1 (l : List Char) : Bool := decide (l ≠ []) && l.all Char.isDigit

/-- bot_detector.py lines 17-28: the suspicious full-match patterns, all of
the shape ^base!?$ (with five stars? contributing both spellings). -/
def suspiciousPatternBases : List String :=
  ["great product", "excellent", "amazing", "love it", "perfect",
   "highly recommend", "five star", "five stars", "best buy", "must have",
   "super"]

def matchesSuspiciousPattern (t : String) : Bool :=
  suspiciousPatternBases.any fun b => t = b || t = b ++ "!"

/-- bot_detector.py lines 31-42: generic phrases counted as substrings. -/
def generic_phrases : List String :=
  ["great product", "excellent quality", "highly recommend",
   "very satisfied", "love it", "perfect", "as described", "fast shipping",
   "good value", "five stars"]

def genericCount (t : String) : ℕ :=
  (generic_phrases.filter fun p => substrOf p.data t.data).length

/-- bot_detector.py lines 128-147, _is_suspicious_author.  The caller
passes the lowercased author name; the anchored patterns are matched
literally (\s modelled as a single whitespace character, \d as ASCII
digits). -/
def _is_suspicious_author (author : String) : Bool :=
  if author = "" then false
  else
    let a := author.data
    ("customer".data.isPrefixOf a && digits1 (a.drop 8)) ||
    ("user".data.isPrefixOf a && digits1 (a.drop 4)) ||
    ("amazon".data.isPrefixOf a &&
      (decide (a.drop 6 = "customer".data) ||
        (match a.drop 6 with
          | c :: rest => c.isWhitespace && decide (rest = "customer".data)
          | [] => false))) ||
    digits1 a ||
    ("reviewer".data.isPrefixOf a && (a.drop 8).all Char.isDigit) ||
    (match a with
      | c1 :: rest =>
        (decide ('a' ≤ c1) && decide (c1 ≤ 'z')) &&
          (digits1 rest ||
            (match rest with
              | c2 :: rest2 =>
                (decide ('a' ≤ c2) && decide (c2 ≤ 'z')) && digits1 rest2
              | [] => false))
      | [] => false)

/-- Largest multiplicity among the split words (max of the Counter values,
bot_detector.py line 105). -/
def maxWordFreq (ws : List (List Char)) : ℕ :=
  (ws.map fun w => ws.count w).foldr max 0

structure RawReview where
  text : String
  title : String
  author : String
  rating : ℚ
  verified : Bool
  helpful_count : ℤ
  date : String
deriving DecidableEq

/-- The nine independent indicator conditions of analyze_review
(bot_detector.py lines 58-108), in source order. -/
structure BotFlags where
  veryShort : Bool
  short5star : Bool
  suspiciousPattern : Bool
  tooGeneric : Bool
  unverifiedExtreme : Bool
  noEngagement : Bool
  suspiciousAuthor : Bool
  excessiveFormatting : Bool
  repetitive : Bool
deriving DecidableEq

def botFlags (r : RawReview) : BotFlags :=
  let text := pyStrip (pyLower (r.text ++ " " ++ r.title))
  let words := pySplitWs text
  { veryShort := decide (text.length < 10)
    short5star := decide (text.length < 30) && decide (r.rating = 5)
    suspiciousPattern := matchesSuspiciousPattern text
    tooGeneric := decide (3 ≤ genericCount text) && decide (text.length < 100)
    unverifiedExtreme :=
      !r.verified && (decide (r.rating = 5) || decide (r.rating = 1))
    noEngagement := decide (r.helpful_count = 0) && decide (text.length < 50)
    suspiciousAuthor := _is_suspicious_author (pyLower r.author)
    excessiveFormatting := pyIsUpper text || decide (5 < text.data.count '!')
    repetitive :=
      decide (5 < words.length) &&
        decide ((maxWordFreq words : ℚ) > (words.length : ℚ) * (0.3 : ℚ)) }

def botWeight (b : Bool) (w : ℚ) : ℚ := if b then w else 0

/-- The weighted accumulation of bot_detector.py lines 58-108. -/
def bot_score_raw (f : BotFlags) : ℚ :=
  botWeight f.veryShort (0.3 : ℚ) + botWeight f.short5star (0.2 : ℚ) +
  botWeight f.suspiciousPattern (0.4 : ℚ) + botWeight f.tooGeneric (0.3 : ℚ) +
  botWeight f.unverifiedExtreme (0.2 : ℚ) + botWeight f.noEngagement (0.1 : ℚ) +
  botWeight f.suspiciousAuthor (0.3 : ℚ) +
  botWeight f.excessiveFormatting (0.2 : ℚ) + botWeight f.repetitive (0.3 : ℚ)

/-- The indicator tags, appended in source order. -/
def bot_indicator_tags (f : BotFlags) : List String :=
  (if f.veryShort then ["very_short"] else []) ++
  (if f.short5star then ["short_5star"] else []) ++
  (if f.suspiciousPattern then ["suspicious_pattern"] else []) ++
  (if f.tooGeneric then ["too_generic"] else []) ++
  (if f.unverifiedExtreme then ["unverified_extreme"] else []) ++
  (if f.noEngagement then ["no_engagement"] else []) ++
  (if f.suspiciousAuthor then ["suspicious_author"] else []) ++
  (if f.excessiveFormatting then ["excessive_formatting"] else []) ++
  (if f.repetitive then ["repetitive"] else [])

structure AnalyzedReview where
  text : String
  title : String
  author : String
  rating : ℚ
  verified : Bool
  helpful_count : ℤ
  date : String
  bot_score : ℚ
  is_bot_likely : Bool
  bot_indicators : List String
  confidence : String
deriving DecidableEq

/-- bot_detector.py lines 44-126, analyze_review: accumulate the weighted
signals, cap at 1.0, flag at 0.6, round the stored score to two decimals
(the flag is computed from the capped unrounded score, as in the source). -/
def analyze_review (r : RawReview) : AnalyzedReview :=
  let f := botFlags r
  let s := min (bot_score_raw f) 1
  { text := r.text, title := r.title, author := r.author, rating := r.rating,
    verified := r.verified, helpful_count := r.helpful_count, date := r.date,
    bot_score := pyRound 2 s,
    is_bot_likely := decide ((0.6 : ℚ) ≤ s),
    bot_indicators := bot_indicator_tags f,
    confidence :=
      if (0.7 : ℚ) ≤ s then "high"
      else if (0.4 : ℚ) ≤ s then "medium" else "low" }

/-- bot_detector.py line 202: date_str.split("T")[0]. -/
def datePart (d : String) : String := ⟨d.data.takeWhile fun c => c ≠ 'T'⟩

/-- bot_detector.py lines 193-225, _detect_batch_patterns: group by date
part; every member of a group of at least five reviews whose ratings form a
single value receives the bulk_posting_same_rating tag, a 0.2 score bump
capped at 1.0, and a re-derived flag. -/
def _detect_batch_patterns (reviews : List AnalyzedReview) :
    List AnalyzedReview :=
  reviews.map fun r =>
    let grp := reviews.filter fun x => decide (datePart x.date = datePart r.date)
    if 5 ≤ grp.length ∧ ∀ x ∈ grp, ∀ y ∈ grp, x.rating = y.rating then
      { r with
          bot_indicators := r.bot_indicators ++ ["bulk_posting_same_rating"],
          bot_score := min (r.bot_score + (0.2 : ℚ)) 1,
          is_bot_likely := decide ((0.6 : ℚ) ≤ min (r.bot_score + (0.2 : ℚ)) 1) }
    else r

structure BotStats where
  total_reviews : ℕ
  genuine_count : Option ℕ
  bot_count : ℕ
  bot_percentage : ℚ
  suspicious_count : ℕ
  filtered_count : Option ℕ
deriving DecidableEq

structure BatchResult where
  analyzed_reviews : List AnalyzedReview
  genuine_reviews : Option (List AnalyzedReview)
  bot_statistics : BotStats
deriving DecidableEq

/-- bot_detector.py lines 149-191, analyze_batch.  The empty-input early
return (lines 154-163) omits the genuine_reviews, genuine_count and
filtered_count keys, modelled as none. -/
def analyze_batch (reviews : List RawReview) : BatchResult :=
  match reviews with
  | [] =>
    { analyzed_reviews := []
      genuine_reviews := none
      bot_statistics :=
        { total_reviews := 0, genuine_count := none, bot_count := 0,
          bot_percentage := 0, suspicious_count := 0,
          filtered_count := none } }
  | _ :: _ =>
    let analyzed := _detect_batch_patterns (reviews.map analyze_review)
    let bot_count := analyzed.countP fun r => r.is_bot_likely
    let suspicious_count := analyzed.countP fun r =>
      decide ((0.3 : ℚ) ≤ r.bot_score ∧ r.bot_score < (0.6 : ℚ))
    let genuine := analyzed.filter fun r => !r.is_bot_likely
    { analyzed_reviews := analyzed
      genuine_reviews := some genuine
      bot_statistics :=
        { total_reviews := reviews.length
          genuine_count := some genuine.length
          bot_count := bot_count
          bot_percentage :=
            pyRound 1 ((bot_count : ℚ) / (reviews.length : ℚ) * 100)
          suspicious_count := suspicious_count
          filtered_count := some bot_count } }

lemma mem_ite_singleton {b : Bool} {s t : String} :
    s ∈ (if b then [t] else ([] : List String)) ↔ b = true ∧ s = t := by
  cases b <;> simp

lemma bot_tags_mem (f : BotFlags) :
    ("very_short" ∈ bot_indicator_tags f ↔ f.veryShort = true) ∧
    ("short_5star" ∈ bot_indicator_tags f ↔ f.short5star = true) ∧
    ("suspicious_pattern" ∈ bot_indicator_tags f
      ↔ f.suspiciousPattern = true) ∧
    ("too_generic" ∈ bot_indicator_tags f ↔ f.tooGeneric = true) ∧
    ("unverified_extreme" ∈ bot_indicator_tags f
      ↔ f.unverifiedExtreme = true) ∧
    ("no_engagement" ∈ bot_indicator_tags f ↔ f.noEngagement = true) ∧
    ("suspicious_author" ∈ bot_indicator_tags f
      ↔ f.suspiciousAuthor = true) ∧
    ("excessive_formatting" ∈ bot_indicator_tags f
      ↔ f.excessiveFormatting = true) ∧
    ("repetitive" ∈ bot_indicator_tags f ↔ f.repetitive = true) := by
  simp [bot_indicator_tags, mem_ite_singleton]

lemma botWeight_mono {b c : Bool} {w : ℚ} (hw : 0 ≤ w)
    (h : b = true → c = true) : botWeight b w ≤ botWeight c w := by
  cases b
  · cases c <;> simp [botWeight, hw]
  · simp [botWeight, h rfl]

lemma pyRound_mono (n : ℕ) {a b : ℚ} (h : a ≤ b) :
    pyRound n a ≤ pyRound n b := by
  unfold pyRound
  have hpow : (0 : ℚ) < 10 ^ n := by positivity
  have hr : round (a * 10 ^ n) ≤ round (b * 10 ^ n) := by
    rw [round_eq, round_eq]
    exact Int.floor_le_floor
      (by nlinarith [mul_le_mul_of_nonneg_right h (le_of_lt hpow)])
  have hc : ((round (a * 10 ^ n) : ℤ) : ℚ) ≤ ((round (b * 10 ^ n) : ℤ) : ℚ) :=
    by exact_mod_cast hr
  gcongr

/-- C8: the per-review bot score is monotone in the fired indicator
signals: when every indicator fired for the first review also fires for the
second, the second bot score is at least the first. -/
theorem C8_score_monotone (r1 r2 : RawReview)
    (hsub : ∀ t ∈ (analyze_review r1).bot_indicators,
        t ∈ (analyze_review r2).bot_indicators) :
    (analyze_review r1).bot_score ≤ (analyze_review r2).bot_score := by
  have hind : ∀ t ∈ bot_indicator_tags (botFlags r1),
      t ∈ bot_indicator_tags (botFlags r2) := by
    simpa [analyze_review] using hsub
  obtain ⟨p1, p2, p3, p4, p5, p6, p7, p8, p9⟩ := bot_tags_mem (botFlags r1)
  obtain ⟨q1, q2, q3, q4, q5, q6, q7, q8, q9⟩ := bot_tags_mem (botFlags r2)
  have hraw : bot_score_raw (botFlags r1) ≤ bot_score_raw (botFlags r2) := by
    unfold bot_score_raw
    have w1 := botWeight_mono (w := (0.3 : ℚ)) (by norm_num)
      fun h => q1.1 (hind _ (p1.2 h))
    have w2 := botWeight_mono (w := (0.2 : ℚ)) (by norm_num)
      fun h => q2.1 (hind _ (p2.2 h))
    have w3 := botWeight_mono (w := (0.4 : ℚ)) (by norm_num)
      fun h => q3.1 (hind _ (p3.2 h))
    have w4 := botWeight_mono (w := (0.3 : ℚ)) (by norm_num)
      fun h => q4.1 (hind _ (p4.2 h))
    have w5 := botWeight_mono (w := (0.2 : ℚ)) (by norm_num)
      fun h => q5.1 (hind _ (p5.2 h))
    have w6 := botWeight_mono (w := (0.1 : ℚ)) (by norm_num)
      fun h => q6.1 (hind _ (p6.2 h))
    have w7 := botWeight_mono (w := (0.3 : ℚ)) (by norm_num)
      fun h => q7.1 (hind _ (p7.2 h))
    have w8 := botWeight_mono (w := (0.2 : ℚ)) (by norm_num)
      fun h => q8.1 (hind _ (p8.2 h))
    have w9 := botWeight_mono (w := (0.3 : ℚ)) (by norm_num)
      fun h => q9.1 (hind _ (p9.2 h))
    exact add_le_add (add_le_add (add_le_add (add_le_add (add_le_add
      (add_le_add (add_le_add (add_le_add w1 w2) w3) w4) w5) w6) w7) w8) w9
  have hmin : min (bot_score_raw (botFlags r1)) 1
      ≤ min (bot_score_raw (botFlags r2)) 1 := min_le_min hraw le_rfl
  simpa [analyze_review] using pyRound_mono 2 hmin

/-- A short unverified five-star review by a generically named author; it
fires a strict superset of the signals of the verified variant below. -/
def c8ReviewMore : RawReview :=
  { text := "nice and good item", title := "", author := "user123",
    rating := 5, verified := false, helpful_count := 0,
    date := "2024-01-02T08:00:00" }

/-- The same review from a verified purchase by a regular author name: only
the short-five-star and no-engagement signals fire. -/
def c8ReviewFewer : RawReview :=
  { text := "nice and good item", title := "", author := "john smith",
    rating := 5, verified := true, helpful_count := 0,
    date := "2024-01-02T08:00:00" }

/-- C8, witness: the concrete signal-superset pair. -/
theorem C8_score_monotone_witness :
    (analyze_review c8ReviewFewer).bot_score
      ≤ (analyze_review c8ReviewMore).bot_score := by
  refine C8_score_monotone c8ReviewFewer c8ReviewMore ?_
  have hf1 : botFlags c8ReviewFewer =
      { veryShort := false, short5star := true, suspiciousPattern := false,
        tooGeneric := false, unverifiedExtreme := false, noEngagement := true,
        suspiciousAuthor := false, excessiveFormatting := false,
        repetitive := false } := by decide
  have hf2 : botFlags c8ReviewMore =
      { veryShort := false, short5star := true, suspiciousPattern := false,
        tooGeneric := false, unverifiedExtreme := true, noEngagement := true,
        suspiciousAuthor := true, excessiveFormatting := false,
        repetitive := false } := by decide
  simp only [analyze_review, hf1, hf2]
  decide

/-- C6: in any batch in which the date group of a review (those sharing its
posting-date part) holds at least five reviews, all with one common rating,
the batch-level second pass run by analyze_batch after individual scoring
appends the bulk_posting_same_rating indicator to that review, bumps its
bot score by 0.2 capped at 1.0, and re-derives the bot-likely flag from the
bumped score. -/
theorem C6_bulk_posting (batch : List RawReview) (d : String) (c : ℚ)
    (r : AnalyzedReview) (hmem : r ∈ batch.map analyze_review)
    (hd : datePart r.date = d)
    (hlen : 5 ≤ ((batch.map analyze_review).filter fun x =>
        decide (datePart x.date = d)).length)
    (hall : ∀ x ∈ (batch.map analyze_review).filter fun x =>
        decide (datePart x.date = d), x.rating = c) :
    { r with
        bot_indicators := r.bot_indicators ++ ["bulk_posting_same_rating"],
        bot_score := min (r.bot_score + (0.2 : ℚ)) 1,
        is_bot_likely :=
          decide ((0.6 : ℚ) ≤ min (r.bot_score + (0.2 : ℚ)) 1) }
      ∈ (analyze_batch batch).analyzed_reviews := by
  match batch, hmem with
  | b :: bs, hmem =>
    have hcond : 5 ≤ (((b :: bs).map analyze_review).filter fun x =>
          decide (datePart x.date = datePart r.date)).length ∧
        ∀ x ∈ ((b :: bs).map analyze_review).filter (fun x =>
          decide (datePart x.date = datePart r.date)),
        ∀ y ∈ ((b :: bs).map analyze_review).filter (fun x =>
          decide (datePart x.date = datePart r.date)),
        x.rating = y.rating := by
      rw [hd]
      exact ⟨hlen, fun x hx y hy => (hall x hx).trans (hall y hy).symm⟩
    simp only [analyze_batch]
    unfold _detect_batch_patterns
    refine List.mem_map.2 ⟨r, hmem, ?_⟩
    simp only [if_pos hcond]

lemma countP_not_add {α : Type} (p : α → Bool) (l : List α) :
    (l.countP fun a => !p a) + l.countP p = l.length := by
  induction l with
  | nil => simp
  | cons a t ih => cases h : p a <;> simp [List.countP_cons, h, ← ih] <;> omega

/-- C10, amended: for every nonempty input list the batch statistics are
consistent: total_reviews is the input length, genuine_reviews is exactly
the analyzed reviews whose bot-likely flag is false, genuine_count is its
length, and genuine_count + bot_count equals total_reviews.  (For the empty
input the early return omits the genuine fields; see the counterexample.) -/
theorem C10_batch_stats (reviews : List RawReview) (h : reviews ≠ []) :
    (analyze_batch reviews).bot_statistics.total_reviews = reviews.length ∧
    (analyze_batch reviews).genuine_reviews =
      some ((analyze_batch reviews).analyzed_reviews.filter
        fun r => !r.is_bot_likely) ∧
    (analyze_batch reviews).bot_statistics.genuine_count =
      some ((analyze_batch reviews).analyzed_reviews.filter
        fun r => !r.is_bot_likely).length ∧
    ((analyze_batch reviews).analyzed_reviews.filter
        fun r => !r.is_bot_likely).length
      + (analyze_batch reviews).bot_statistics.bot_count
      = reviews.length := by
  match reviews, h with
  | b :: bs, _ =>
    refine ⟨rfl, rfl, rfl, ?_⟩
    show ((_detect_batch_patterns ((b :: bs).map analyze_review)).filter
        fun r => !r.is_bot_likely).length
      + (_detect_batch_patterns ((b :: bs).map analyze_review)).countP
          (fun r => r.is_bot_likely)
      = (b :: bs).length
    rw [← List.countP_eq_length_filter, countP_not_add]
    simp [_detect_batch_patterns]

/-- C10, witness: a concrete singleton batch. -/
theorem C10_batch_stats_witness :
    (analyze_batch [c8ReviewFewer]).bot_statistics.total_reviews
        = [c8ReviewFewer].length ∧
    (analyze_batch [c8ReviewFewer]).genuine_reviews =
      some ((analyze_batch [c8ReviewFewer]).analyzed_reviews.filter
        fun r => !r.is_bot_likely) ∧
    (analyze_batch [c8ReviewFewer]).bot_statistics.genuine_count =
      some ((analyze_batch [c8ReviewFewer]).analyzed_reviews.filter
        fun r => !r.is_bot_likely).length ∧
    ((analyze_batch [c8ReviewFewer]).analyzed_reviews.filter
        fun r => !r.is_bot_likely).length
      + (analyze_batch [c8ReviewFewer]).bot_statistics.bot_count
      = [c8ReviewFewer].length :=
  C10_batch_stats [c8ReviewFewer] (by simp)

/-- C10, counterexample: on the empty input list analyze_batch omits the
genuine_reviews list and the genuine_count entry altogether (the claim, as
stated for every input list, requires them to be present and consistent). -/
theorem C10_counterexample :
    (analyze_batch ([] : List RawReview)).genuine_reviews ≠
      some ((analyze_batch ([] : List RawReview)).analyzed_reviews.filter
        fun r => !r.is_bot_likely) ∧
    (analyze_batch ([] : List RawReview)).bot_statistics.genuine_count
      = none := by
  exact ⟨by simp [analyze_batch], rfl⟩

/-- Scenario C review: unverified five-star with a short text, posted on
the shared date; individually scored 0.4, below the 0.6 flag threshold. -/
def c6Review : RawReview :=
  { text := "nice and good item", title := "", author := "john smith",
    rating := 5, verified := false, helpful_count := 1,
    date := "2024-01-01T09:00:00" }

/-- The individually analyzed form of c6Review. -/
def c6Analyzed : AnalyzedReview :=
  { text := "nice and good item", title := "", author := "john smith",
    rating := 5, verified := false, helpful_count := 1,
    date := "2024-01-01T09:00:00", bot_score := (0.4 : ℚ),
    is_bot_likely := false,
    bot_indicators := ["short_5star", "unverified_extreme"],
    confidence := "medium" }

/-- C6, witness: six copies of the same-day five-star review; the batch
pass pushes each of them from 0.4 to 0.6, across the bot threshold. -/
theorem C6_bulk_posting_witness :
    { c6Analyzed with
        bot_indicators :=
          c6Analyzed.bot_indicators ++ ["bulk_posting_same_rating"],
        bot_score := min (c6Analyzed.bot_score + (0.2 : ℚ)) 1,
        is_bot_likely :=
          decide ((0.6 : ℚ) ≤ min (c6Analyzed.bot_score + (0.2 : ℚ)) 1) }
      ∈ (analyze_batch [c6Review, c6Review, c6Review, c6Review, c6Review,
          c6Review]).analyzed_reviews := by
  have hf : botFlags c6Review =
      { veryShort := false, short5star := true, suspiciousPattern := false,
        tooGeneric := false, unverifiedExtreme := true, noEngagement := false,
        suspiciousAuthor := false, excessiveFormatting := false,
        repetitive := false } := by decide
  have hA : analyze_review c6Review = c6Analyzed := by
    simp only [analyze_review]
    rw [hf]
    simp only [c6Review, c6Analyzed, bot_score_raw, botWeight,
      bot_indicator_tags]
    norm_num [pyRound, round_eq, min_def]
  have hdpA : datePart c6Analyzed.date = "2024-01-01" := by decide
  refine C6_bulk_posting _ "2024-01-01" 5 c6Analyzed ?_ hdpA ?_ ?_
  · simp [hA]
  · simp [hA, hdpA]
  · intro x hx
    simp [hA, hdpA] at hx
    rw [hx]
    rfl

/- ----------------------------------------------------------------------
Emotion detection (claim C9).

backend/app/services/free_ai_nlp.py lines 232-280, detect_emotions.  The
optional transformer classifier is an oracle parameter (the Railway
deployment runs without it); when absent the rule-based keyword branch of
the source is used.  The function is total: no input raises.
---------------------------------------------------------------------- -/

structure Emotions where
  joy : ℚ
  anger : ℚ
  fear : ℚ
  sadness : ℚ
  surprise : ℚ
  disgust : ℚ
  trust : ℚ
  anticipation : ℚ
deriving DecidableEq

def zeroEmotions : Emotions :=
  { joy := 0, anger := 0, fear := 0, sadness := 0, surprise := 0,
    disgust := 0, trust := 0, anticipation := 0 }

/-- free_ai_nlp.py lines 250-258: fold a transformer result into the
emotion table (love feeds joy, optimism feeds anticipation). -/
def applyEmotionLabel (e : Emotions) (label : String) (score : ℚ) :
    Emotions :=
  let l := pyLower label
  if l = "joy" then { e with joy := score }
  else if l = "anger" then { e with anger := score }
  else if l = "fear" then { e with fear := score }
  else if l = "sadness" then { e with sadness := score }
  else if l = "surprise" then { e with surprise := score }
  else if l = "disgust" then { e with disgust := score }
  else if l = "trust" then { e with trust := score }
  else if l = "anticipation" then { e with anticipation := score }
  else if l = "love" then { e with joy := max e.joy score }
  else if l = "optimism" then
    { e with anticipation := max e.anticipation score }
  else e

/-- free_ai_nlp.py line 277-278: per-dimension keyword-match count scaled
by 0.2 and capped at 1. -/
def emotionKeywordScore (textLower : String) (kws : List String) : ℚ :=
  min (((kws.countP fun k => substrOf k.data textLower.data) : ℚ) * (0.2 : ℚ)) 1

/-- All keywords of the rule-based table (free_ai_nlp.py lines 264-273). -/
def allEmotionKeywords : List String :=
  ["happy", "glad", "joyful", "excited", "love", "wonderful", "amazing",
   "angry", "furious", "annoyed", "frustrated", "hate", "terrible",
   "afraid", "scared", "worried", "anxious", "nervous", "terrified",
   "sad", "depressed", "unhappy", "disappointed", "miserable",
   "surprised", "shocked", "amazed", "astonished", "unexpected",
   "disgusting", "gross", "horrible", "awful", "revolting",
   "trust", "reliable", "honest", "faithful", "dependable",
   "looking forward", "excited", "eager", "hopeful", "expecting"]

/-- free_ai_nlp.py lines 232-280, detect_emotions. -/
def detect_emotions
    (transformerEmotion : Option (String → List (String × ℚ)))
    (text : String) : Emotions :=
  match transformerEmotion with
  | some model =>
    ((model ⟨text.data.take 512⟩).foldl
      (fun e r => applyEmotionLabel e r.1 r.2) zeroEmotions)
  | none =>
    let tl := pyLower text
    { joy := emotionKeywordScore tl
        ["happy", "glad", "joyful", "excited", "love", "wonderful",
         "amazing"]
      anger := emotionKeywordScore tl
        ["angry", "furious", "annoyed", "frustrated", "hate", "terrible"]
      fear := emotionKeywordScore tl
        ["afraid", "scared", "worried", "anxious", "nervous", "terrified"]
      sadness := emotionKeywordScore tl
        ["sad", "depressed", "unhappy", "disappointed", "miserable"]
      surprise := emotionKeywordScore tl
        ["surprised", "shocked", "amazed", "astonished", "unexpected"]
      disgust := emotionKeywordScore tl
        ["disgusting", "gross", "horrible", "awful", "revolting"]
      trust := emotionKeywordScore tl
        ["trust", "reliable", "honest", "faithful", "dependable"]
      anticipation := emotionKeywordScore tl
        ["looking forward", "excited", "eager", "hopeful", "expecting"] }

/-- C9: for any text in which no emotion keyword occurs as a substring of
the lowercased text (in particular the empty string), the rule-based
emotion scorer returns the all-zero eight-dimension vector; the embedded
function is total, so no input raises. -/
theorem C9_no_matches_zero (text : String)
    (h : ∀ k ∈ allEmotionKeywords,
        substrOf k.data (pyLower text).data = false) :
    detect_emotions none text = zeroEmotions := by
  have hz : ∀ kws : List String, (∀ k ∈ kws, k ∈ allEmotionKeywords) →
      emotionKeywordScore (pyLower text) kws = 0 := by
    intro kws hsub
    unfold emotionKeywordScore
    have hc : kws.countP (fun k => substrOf k.data (pyLower text).data) = 0 :=
      List.countP_eq_zero.2 fun k hk => by simp [h k (hsub k hk)]
    rw [hc]
    norm_num
  show Emotions.mk _ _ _ _ _ _ _ _ = zeroEmotions
  rw [hz _ (by decide), hz _ (by decide), hz _ (by decide), hz _ (by decide),
    hz _ (by decide), hz _ (by decide), hz _ (by decide), hz _ (by decide)]
  rfl

/-- C9, witness: the empty string yields the all-zero vector. -/
theorem C9_no_matches_zero_witness :
    detect_emotions none "" = zeroEmotions :=
  C9_no_matches_zero "" (by decide)

/- ----------------------------------------------------------------------
Synthetic fallback generator (claim C7).

backend/app/services/amazon_scraper.py lines 243-296,
_generate_mock_reviews: the generator used when no real service is
available.  It draws from the process-global random module, which is never
seeded from the productId; the generator is embedded as a function of an
explicit stream of naturals, one entry consumed per primitive draw.
random.random() is modelled as the next entry reduced mod 10^6 and scaled
to [0, 1); random.randint and random.choice by the next entry reduced to
the requested range.  The strftime-rendered review date is abstracted to
its day offset from the base date, and datetime.now() to the now
parameter. -/

def Rng : Type := ℕ → ℕ

def rngNext (g : Rng) : Rng := fun n => g (n + 1)

def randFloat (g : Rng) : ℚ × Rng := (((g 0 % 1000000 : ℕ) : ℚ) / 1000000, rngNext g)

def randIntIncl (g : Rng) (a b : ℕ) : ℕ × Rng := (a + g 0 % (b + 1 - a), rngNext g)

def pickFrom {α : Type} (g : Rng) (l : List α) (dflt : α) : α × Rng :=
  (l.getD (g 0 % l.length) dflt, rngNext g)

def positive_templates : List String :=
  ["Great product! Exactly what I needed. Highly recommend.",
   "Excellent quality and fast shipping. Very satisfied.",
   "Love it! Works perfectly and the battery life is amazing.",
   "Best purchase I\x27ve made. The build quality is outstanding.",
   "Perfect for my needs. Easy to use and very reliable.",
   "Outstanding product! Exceeded expectations in every way.",
   "The quality is superb. Very happy with this purchase!",
   "Absolutely love this! Worth every penny."]

def neutral_templates : List String :=
  ["It\x27s okay. Does what it\x27s supposed to do.",
   "Decent product for the price. Nothing special.",
   "Works as expected. No complaints but not amazing.",
   "Average quality. Gets the job done.",
   "It\x27s fine. Met my basic expectations."]

def negative_templates : List String :=
  ["Disappointed with the quality. Not worth the price.",
   "Stopped working after a few days. Poor quality.",
   "Not as described. Expected better.",
   "Had issues from day one. Would not recommend.",
   "The battery life is terrible. Very frustrating.",
   "Poor build quality. Feels cheap and flimsy."]

def feature_words : List String :=
  ["battery", "quality", "price", "shipping", "design",
   "features", "size", "color", "packaging", "performance"]

structure MockReview where
  review_id : String
  asin : String
  rating : ℚ
  review_text : String
  review_title : String
  review_date_days : ℕ
  verified_purchase : Bool
  helpful_votes : ℕ
deriving DecidableEq

/-- Zero-padded index of the f-string {i:04d}. -/
def pad4 (i : ℕ) : String :=
  let s := toString i
  if s.length < 4 then ⟨List.replicate (4 - s.length) '0'⟩ ++ s else s

/-- One loop iteration of amazon_scraper.py lines 248-284, draws in source
order: rating roll, template choice, feature gate and choice, date offset,
verified roll, helpful votes. -/
def scraperGenOne (asin : String) (i : ℕ) (g : Rng) : MockReview × Rng :=
  let roll := randFloat g
  let rt : ℚ × List String :=
    if roll.1 < (0.50 : ℚ) then (5, positive_templates)
    else if roll.1 < (0.70 : ℚ) then (4, positive_templates)
    else if roll.1 < (0.80 : ℚ) then (3, neutral_templates)
    else if roll.1 < (0.90 : ℚ) then (2, negative_templates)
    else (1, negative_templates)
  let tpl := pickFrom roll.2 rt.2 ""
  let fgate := randFloat tpl.2
  let txt : String × Rng :=
    if fgate.1 > (0.3 : ℚ) then
      let feature := pickFrom fgate.2 feature_words ""
      (tpl.1 ++ " The " ++ feature.1 ++ " is excellent.", feature.2)
    else (tpl.1, fgate.2)
  let dateOff := randIntIncl txt.2 0 365
  let vroll := randFloat dateOff.2
  let hv := randIntIncl vroll.2 0 50
  ({ review_id := asin ++ "_" ++ pad4 i
     asin := asin
     rating := rt.1
     review_text := txt.1
     review_title := "Review " ++ toString (i + 1)
     review_date_days := dateOff.1
     verified_purchase := decide (vroll.1 > (0.2 : ℚ))
     helpful_votes := hv.1 }, hv.2)

def scraperGenLoop (asin : String) : ℕ → ℕ → Rng → List MockReview × Rng
  | _, 0, g => ([], g)
  | i, Nat.succ n, g =>
    let r := scraperGenOne asin i g
    let rest := scraperGenLoop asin (i + 1) n r.2
    (r.1 :: rest.1, rest.2)

structure MockFetchResult where
  success : Bool
  asin : String
  total_reviews : ℕ
  reviews : List MockReview
  product_title : String
  average_rating : ℚ
  fetched_at : String
deriving DecidableEq

/-- amazon_scraper.py lines 243-296.  The average over an empty review list
divides by zero (a count of 0 would raise in Python; rational division
totalises it as 0, outside the scope of the claims). -/
def _generate_mock_reviews (asin : String) (count : ℕ) (now : String)
    (g : Rng) : MockFetchResult × Rng :=
  let gen := scraperGenLoop asin 0 count g
  ({ success := true
     asin := asin
     total_reviews := gen.1.length
     reviews := gen.1
     product_title := "Sample Product " ++ asin
     average_rating :=
       pyRound 2 ((gen.1.map fun r => r.rating).sum / (gen.1.length : ℚ))
     fetched_at := now }, gen.2)

/-- C7, amended: the fallback generator is a deterministic function of the
product id, the requested count, the clock and the state of the
process-global random stream — not of a productId-derived seed; two
invocations agree whenever the random streams they read agree pointwise
(and, as the counterexample shows, successive invocations advance the
stream and can differ). -/
theorem C7_generator_determinism (asin : String) (count : ℕ) (now : String)
    (g1 g2 : Rng) (h : ∀ k, g1 k = g2 k) :
    _generate_mock_reviews asin count now g1
      = _generate_mock_reviews asin count now g2 := by
  rw [funext h]

/-- C7, witness: identical streams give identical results. -/
theorem C7_generator_determinism_witness :
    _generate_mock_reviews "B0TESTASIN" 3 "2024-01-01"
        (fun n => n * 37 + 11)
      = _generate_mock_reviews "B0TESTASIN" 3 "2024-01-01"
        (fun n => n * 37 + 11) :=
  C7_generator_determinism "B0TESTASIN" 3 "2024-01-01" _ _ (fun _ => rfl)

/-- C7, counterexample: with the clock held fixed, two successive
invocations for the same productId and maxReviews return different review
lists (the first draws a 0.0 rating roll and produces a 5-star review, the
second resumes the advanced stream, draws 0.999999 and produces a 1-star
review), so the generator is not deterministic in productId and maxReviews
alone. -/
theorem C7_counterexample :
    (_generate_mock_reviews "B0TESTASIN" 1 "2024-01-01"
        (fun n => if n ≤ 3 then 0 else 999999)).1.reviews ≠
    (_generate_mock_reviews "B0TESTASIN" 1 "2024-01-01"
        ((_generate_mock_reviews "B0TESTASIN" 1 "2024-01-01"
          (fun n => if n ≤ 3 then 0 else 999999)).2)).1.reviews := by
  intro hEq
  have hr := congrArg (fun l => l.map fun r => r.rating) hEq
  have h1 : ((_generate_mock_reviews "B0TESTASIN" 1 "2024-01-01"
      (fun n => if n ≤ 3 then 0 else 999999)).1.reviews.map
        fun r => r.rating) = [5] := by
    norm_num [_generate_mock_reviews, scraperGenLoop, scraperGenOne,
      randFloat, randIntIncl, pickFrom, rngNext]
  have h2 : ((_generate_mock_reviews "B0TESTASIN" 1 "2024-01-01"
      ((_generate_mock_reviews "B0TESTASIN" 1 "2024-01-01"
        (fun n => if n ≤ 3 then 0 else 999999)).2)).1.reviews.map
          fun r => r.rating) = [1] := by
    norm_num [_generate_mock_reviews, scraperGenLoop, scraperGenOne,
      randFloat, randIntIncl, pickFrom, rngNext]
  simp only [] at hr
  rw [h1, h2] at hr
  exact absurd hr (by norm_num)

/- ----------------------------------------------------------------------
Analysis pipeline determinism (claim C5).

backend/app/services/analyzer.py lines 184-375.  The validation and
DataFrame-preparation logic is embedded concretely; the eight per-stage
analysis functions, the insight and summary generators and the text cleaner
are oracle parameters (they wrap external models; the only random model,
the LDA of _perform_topic_modeling, is constructed with random_state=42 and
the same loaded model objects serve both runs).  The process clock feeding
the analyzed_at field is the now parameter: a grep of analyzer.py shows
datetime.now() on line 355 and the fixed seed on line 743 as the only
nondeterminism sources.  A stage result is Except String String: ok is the
stage payload, error models the caught exception stored as an error entry
(lines 313-319).
---------------------------------------------------------------------- -/

inductive RatingCell where
  | absent
  | unparseable
  | value (q : ℚ)
deriving DecidableEq

structure InputReview where
  review_text : Option String
  text : Option String
  rating : RatingCell
  review_date : Option String
  date : Option String
  verified_purchase : Option Bool
  helpful_votes : Option ℤ
  reviewer_name : Option String
deriving DecidableEq

structure SanitizedReview where
  review_text : String
  rating : ℚ
  review_date : Option String
  verified_purchase : Bool
  helpful_votes : ℤ
  reviewer_name : String
deriving DecidableEq

/-- analyzer.py lines 241-248: rating 0 when the key is absent (the
default), 3.0 when float() raises or the value is outside [0, 5]. -/
def parseRatingCell : RatingCell → ℚ
  | .absent => 0
  | .unparseable => 3
  | .value q => if 0 ≤ q ∧ q ≤ 5 then q else 3

/-- analyzer.py lines 225-264, _sanitize_single_review.  An unparseable
helpful_votes value would raise inside the try and drop the review; the
typed embedding only models present-or-absent integers. -/
def _sanitize_single_review (review : InputReview) (index : ℕ) :
    Option SanitizedReview :=
  let rt0 :=
    match review.review_text with
    | some t => if t = "" then review.text.getD "" else t
    | none => review.text.getD ""
  if rt0 = "" then none
  else
    let rt := pyStrip rt0
    if rt.length < 5 then none
    else
      some { review_text := rt
             rating := parseRatingCell review.rating
             review_date :=
               match review.review_date with
               | some d => some d
               | none => review.date
             verified_purchase := review.verified_purchase.getD false
             helpful_votes := max 0 (review.helpful_votes.getD 0)
             reviewer_name :=
               review.reviewer_name.getD ("Reviewer_" ++ toString index) }

structure ReviewsData where
  success : Bool
  error : Option String
  reviews : List InputReview
  asin : String
  product_info_title : Option String
  api_source : Option String
  max_reviews_limit : Option ℕ
  fallback : Option Bool
deriving DecidableEq

/-- analyzer.py lines 184-222, _validate_and_sanitize_input. -/
def _validate_and_sanitize_input (d : ReviewsData) :
    Bool × String × List SanitizedReview :=
  if d.success = false then
    (false, "Input data error: " ++ d.error.getD "Unknown error in input data",
      [])
  else if d.reviews = [] then (false, "No reviews to analyze", [])
  else
    let valid := d.reviews.enum.filterMap
      fun p => _sanitize_single_review p.2 p.1
    if valid = [] then
      (false, "No valid reviews found after sanitization", [])
    else (true, "Valid input", valid)

structure CleanedRow where
  row : PreparedRow
  cleaned_text : String
deriving DecidableEq

structure StageMap where
  sentiment_distribution : Except String String
  emotion_analysis : Except String String
  keyword_analysis : Except String String
  topic_modeling : Except String String
  rating_distribution : Except String String
  temporal_trends : Except String String
  quality_metrics : Except String String
  customer_segments : Except String String

structure AnalyzerDeps where
  clean : String → String
  sentimentFn : List CleanedRow → Except String String
  emotionFn : List CleanedRow → Except String String
  keywordFn : List CleanedRow → Except String String
  topicFn : List CleanedRow → Except String String
  ratingFn : List CleanedRow → Except String String
  temporalFn : List CleanedRow → Except String String
  qualityFn : List CleanedRow → Except String String
  segmentsFn : List CleanedRow → Except String String
  insightsFn : List CleanedRow → Except String String →
    Except String String → Except String String → Except String String →
    Except String String → Except String (List String)
  summaryFn : List CleanedRow → Except String String →
    Except String String → List String → Except String String
  activeModels : List String

inductive AnalysisOutcome where
  | failure (error : String) (errorType : String)
  | success (asin : String) (productTitle : String) (totalReviews : ℕ)
      (analyzedAt : String) (results : StageMap) (insights : List String)
      (summary : String) (apiSource : String) (maxReviewsLimit : ℕ)
      (aiModelsUsed : List String) (fallbackUsed : Bool)
      (analysisVersion : String) (deploymentMode : String)

/-- analyzer.py lines 266-375, analyze_reviews: validate, prepare the
DataFrame, clean the texts, run the eight stages with per-stage error
capture, generate insights and summary with fallbacks, and assemble the
result; analyzed_at is the only field built from the clock. -/
def analyze_reviews (deps : AnalyzerDeps) (now : String) (d : ReviewsData) :
    AnalysisOutcome :=
  let v := _validate_and_sanitize_input d
  if v.1 = false then .failure v.2.1 "validation_error"
  else
    let df0 := _prepare_dataframe_enhanced (v.2.2.map fun r =>
      { review_text := some r.review_text, rating := some r.rating,
        review_date := r.review_date })
    if df0 = [] then
      .failure "Failed to create valid DataFrame from reviews"
        "dataframe_error"
    else
      let df := df0.map fun row =>
        { row := row, cleaned_text := deps.clean row.review_text }
      let results : StageMap :=
        { sentiment_distribution := deps.sentimentFn df
          emotion_analysis := deps.emotionFn df
          keyword_analysis := deps.keywordFn df
          topic_modeling := deps.topicFn df
          rating_distribution := deps.ratingFn df
          temporal_trends := deps.temporalFn df
          quality_metrics := deps.qualityFn df
          customer_segments := deps.segmentsFn df }
      let insights :=
        match deps.insightsFn df results.sentiment_distribution
          results.emotion_analysis results.keyword_analysis
          results.topic_modeling results.customer_segments with
        | .ok l => l
        | .error e => ["Insights generation failed: " ++ e]
      let summary :=
        match deps.summaryFn df results.sentiment_distribution
          results.emotion_analysis insights with
        | .ok s => s
        | .error e => "Summary generation failed: " ++ e
      .success d.asin (d.product_info_title.getD "Unknown Product")
        df0.length now results insights summary
        (d.api_source.getD "apify") (d.max_reviews_limit.getD 5)
        deps.activeModels (d.fallback.getD false) "2.0_lightweight"
        "railway"

/-- Overwrite the analyzed_at field (failures carry no timestamp). -/
def scrubTimestamp : AnalysisOutcome → AnalysisOutcome
  | .failure e t => .failure e t
  | .success a p tr _ res ins sum api mx ai fb ver dep =>
    .success a p tr "" res ins sum api mx ai fb ver dep

/-- C5: two runs of the analysis over identical input data and identical
loaded stage models agree on every field of the result except analyzed_at:
erasing that one timestamp field makes the two outcomes equal, whatever the
two clock readings were. -/
theorem C5_two_run_determinism (deps : AnalyzerDeps) (d : ReviewsData)
    (t1 t2 : String) :
    scrubTimestamp (analyze_reviews deps t1 d)
      = scrubTimestamp (analyze_reviews deps t2 d) := by
  unfold analyze_reviews
  dsimp only
  split_ifs <;> rfl
